import Mathlib

/-!
Shallow embedding of the smart-data-ally backend (src/backend/main.py).

The program is a FastAPI service whose pipeline turns a natural-language
question into a pandas expression (via an OpenAI call), evaluates it against
an in-memory DataFrame, humanizes the result (second OpenAI call) and asks
for a chart suggestion (third OpenAI call).

External effects are modelled as explicit inputs:
  * the OpenAI credential is an `Option String` (Python `os.getenv`), and the
    code's truthiness test `if not openai.api_key` is `keyFalsy`;
  * each ChatCompletion call site receives the outcome of its own call as a
    value (the backend is an opaque external collaborator);
  * `eval(pandas_query, {"df": data, "pd": pd})` is an oracle function from
    the query string and the table to an `EvalOutcome`;
  * `pd.read_csv` on an uploaded file is a `CsvParseOutcome`.

Python dicts are modelled as insertion-ordered association lists; a duplicate
key is resolved on lookup by taking the last occurrence, matching dict
overwrite semantics.
-/

set_option autoImplicit false

namespace SmartDataAlly

/-- Model of the Python values that can appear as table cells, series index
labels, or results of `eval` on backend-generated text (restricted to
string-keyed mappings, which is all the program ever reads). -/
inductive PyVal where
  | pyNone : PyVal
  | pyBool (b : Bool) : PyVal
  | pyInt (n : Int) : PyVal
  | pyStr (s : String) : PyVal
  | pyList (xs : List PyVal) : PyVal
  | pyDict (entries : List (String × PyVal)) : PyVal


/-- Model of a pandas DataFrame: named columns in order, rows in order. -/
structure DataFrame where
  columns : List String
  rows : List (List PyVal)


/-- Well-formedness of a DataFrame: every row has one cell per column. -/
def DataFrame.WF (t : DataFrame) : Prop :=
  ∀ r ∈ t.rows, r.length = t.columns.length

/-- Model of a pandas Series: an index of labels and the values, in order. -/
structure Series where
  index : List PyVal
  values : List PyVal


/-- The shape of a value produced by `eval` of the pandas query: a DataFrame,
a Series, or anything else (scalar, list, computed value). -/
inductive PandasValue where
  | df (t : DataFrame) : PandasValue
  | ser (s : Series) : PandasValue
  | other (v : PyVal) : PandasValue


/-- Outcome of `eval(pandas_query, {"df": data, "pd": pd})`: a value, or an
exception. -/
inductive EvalOutcome where
  | ok (v : PandasValue) : EvalOutcome
  | raises : EvalOutcome


/-- The `Dict` returned by `execute_pandas_query` (despite the annotation it
is a list of dicts for a DataFrame). `records` is
`result.to_dict(orient="records")`, `seriesDict` is `Series.to_dict()`,
`valueBox` is `{"value": result}`, `errorDict` is `{"error": msg}`. -/
inductive ResultDict where
  | records (rs : List (List (String × PyVal))) : ResultDict
  | seriesDict (m : List (PyVal × PyVal)) : ResultDict
  | valueBox (v : PyVal) : ResultDict
  | errorDict (msg : String) : ResultDict


/-- `DataFrame.to_dict(orient="records")`: one mapping per row, keys being the
column names in their original order. -/
def DataFrame.toRecords (t : DataFrame) : List (List (String × PyVal)) :=
  t.rows.map (fun r => t.columns.zip r)

/-- `Series.to_dict()`: the mapping from index label to value, in row order. -/
def Series.toDict (s : Series) : List (PyVal × PyVal) :=
  s.index.zip s.values

/-- Truthiness test `if not openai.api_key` after
`openai.api_key = os.getenv('OPENAI_API_KEY')`: true when the variable is
unset or set to the empty string. -/
def keyFalsy : Option String → Bool
  | none => true
  | some s => s.isEmpty

/-- Python `str.strip()`: remove leading and trailing whitespace. Implemented
structurally on the character list so that concrete instances evaluate. -/
def pyStrip (s : String) : String :=
  String.mk (((s.data.dropWhile Char.isWhitespace).reverse.dropWhile Char.isWhitespace).reverse)

/-- Outcome of one `openai.ChatCompletion.create` call site that is consumed
as text: a well-formed response whose message content is `content`, an
`openai.error.OpenAIError`, or any other exception (for example a response
object missing the expected keys, so that the subscription raises). -/
inductive TextCallOutcome where
  | ok (content : String) : TextCallOutcome
  | openaiError : TextCallOutcome
  | malformedAnswer : TextCallOutcome


/-- Embedding of `get_pandas_query` (src/backend/main.py:45-68). When the
credential is falsy the code raises `HTTPException(500)` inside its own
`try`, which the blanket `except Exception` converts into `return ""`. -/
def get_pandas_query (apiKey : Option String) (backend : TextCallOutcome) : String :=
  if keyFalsy apiKey then ""
  else
    match backend with
    | .ok content => pyStrip content
    | .openaiError => ""
    | .malformedAnswer => ""

/-- Embedding of `execute_pandas_query` (src/backend/main.py:72-90). The
`ev` argument is the oracle for `eval` applied to the query and the table. -/
def execute_pandas_query (pandas_query : String) (data : DataFrame)
    (ev : String → DataFrame → EvalOutcome) : ResultDict :=
  if pandas_query = "" then
    .errorDict "There was an issue processing your request. Please try again later."
  else
    match ev pandas_query data with
    | .ok (.df t) => .records t.toRecords
    | .ok (.ser s) => .seriesDict s.toDict
    | .ok (.other v) => .valueBox v
    | .raises => .errorDict "We couldn't process the data at the moment. Please try again later."

/-- Python equality of a dict key with the string literal `"error"` (the
membership test `"error" in result_dict` compares `"error"` against each key;
it is true only for an equal string key). -/
def isErrorLabel : PyVal → Bool
  | .pyStr s => s == "error"
  | _ => false

/-- The test `"error" in result_dict` of src/backend/main.py:101. On the
`records` shape the Python value is a *list* of dicts, so membership compares
`"error"` against whole dicts and is always false; on a dict it tests keys. -/
def hasErrorKey : ResultDict → Bool
  | .records _ => false
  | .seriesDict m => m.any (fun kv => isErrorLabel kv.1)
  | .valueBox _ => false
  | .errorDict _ => true

/-- The lookup `result_dict["error"]` (src/backend/main.py:102). Only reached
when `hasErrorKey` holds; for a dict with duplicate keys Python keeps the last
written value, hence the reverse search. The default is never reached. -/
def errorVal : ResultDict → PyVal
  | .seriesDict m =>
      (((m.reverse).find? (fun kv => isErrorLabel kv.1)).map Prod.snd).getD .pyNone
  | .errorDict msg => .pyStr msg
  | _ => .pyNone

/-- Lines 100-102 of src/backend/main.py: if the pandas query failed (or the
dict merely happens to expose an "error" key), substitute
`{"value": result_dict["error"]}`. -/
def collapseError (result_dict : ResultDict) : ResultDict :=
  if hasErrorKey result_dict then .valueBox (errorVal result_dict) else result_dict

/-- Embedding of `get_humanized_response` (src/backend/main.py:94-123). The
`backend` argument gives the outcome of the ChatCompletion call as a function
of the variable parts of the prompt (user query, pandas query, and the
result dict after the error collapse). When the credential is falsy the code
raises `HTTPException(500)` inside the `try`; it is not an
`openai.error.OpenAIError`, so the blanket `except Exception` returns the
"processing your request" string, and the same string answers any other
non-OpenAI exception. An `OpenAIError` yields the "generating the response"
string. -/
def get_humanized_response (apiKey : Option String)
    (backend : String → String → ResultDict → TextCallOutcome)
    (user_query pandas_query : String) (result_dict : ResultDict) : String :=
  if keyFalsy apiKey then
    "We encountered an issue processing your request. Please try again later."
  else
    let rd := collapseError result_dict
    match backend user_query pandas_query rd with
    | .ok content => pyStrip content
    | .openaiError => "We encountered an issue generating the response. Please try again later."
    | .malformedAnswer => "We encountered an issue processing your request. Please try again later."

/-- Outcome of the chart-suggestion ChatCompletion call together with the
`eval(suggestion)` parse of its answer: the parse produced the value `v`, the
parse raised, or the call itself (or the response subscription) raised. -/
inductive ChartCallOutcome where
  | evalOk (v : PyVal) : ChartCallOutcome
  | evalRaises : ChartCallOutcome
  | callFails : ChartCallOutcome

/-- The literal `{"chart_type": None, "data_points": None}` returned by the
chart advisor on any caught exception. -/
def emptySuggestion : PyVal :=
  .pyDict [("chart_type", .pyNone), ("data_points", .pyNone)]

/-- Embedding of `suggest_chart_type` (src/backend/main.py:157-180). A falsy
credential raises `HTTPException(500)` inside the `try`, caught by
`except Exception`; a successful `eval(suggestion)` is returned verbatim,
whatever shape it has. -/
def suggest_chart_type (apiKey : Option String) (backend : ChartCallOutcome) : PyVal :=
  if keyFalsy apiKey then emptySuggestion
  else
    match backend with
    | .evalOk v => v
    | .evalRaises => emptySuggestion
    | .callFails => emptySuggestion

/-- Python `x.get(k)` used at src/backend/main.py:151-152: on a dict it
returns the value of the last occurrence of `k` (or `None` when absent); on
any non-dict value it raises `AttributeError`, modelled by `none`. -/
def pyGet (v : PyVal) (k : String) : Option PyVal :=
  match v with
  | .pyDict es =>
      some ((((es.reverse).find? (fun e => decide (e.1 = k))).map Prod.snd).getD .pyNone)
  | _ => none

/-- Lookup in the module-level `datasets` dict, keys unique. -/
def lookupStore (store : List (String × DataFrame)) (name : String) : Option DataFrame :=
  ((store.find? (fun e => decide (e.1 = name))).map Prod.snd)

/-- The JSON object assembled by the `/query` endpoint
(src/backend/main.py:146-154). -/
structure ResponseEnvelope where
  query : String
  result : ResultDict
  humanized_response : String
  chart_type : PyVal
  data_points : PyVal

/-- HTTP-level outcome of one request: a 200 with a body, an explicit
`HTTPException`, or a 500 from an exception escaping the endpoint. -/
inductive HttpResponse where
  | ok (env : ResponseEnvelope) : HttpResponse
  | httpError (status : Nat) (detail : String) : HttpResponse
  | serverError : HttpResponse

/-- Embedding of the `/query` endpoint `query_data`
(src/backend/main.py:126-154). The four pipeline steps never raise; the
final `.get` calls raise `AttributeError` (escaping as a 500) exactly when
the chart suggestion is not a dict. -/
def query_data (datasets : List (String × DataFrame)) (apiKey : Option String)
    (synth : TextCallOutcome) (ev : String → DataFrame → EvalOutcome)
    (hum : String → String → ResultDict → TextCallOutcome)
    (chart : ChartCallOutcome)
    (dataset_name user_query : String) : HttpResponse :=
  match lookupStore datasets dataset_name with
  | none => .httpError 404 "Dataset not found"
  | some data =>
    let pandas_query := get_pandas_query apiKey synth
    let result_dict := execute_pandas_query pandas_query data ev
    let humanized_text := get_humanized_response apiKey hum user_query pandas_query result_dict
    let chart_suggestion := suggest_chart_type apiKey chart
    match pyGet chart_suggestion "chart_type", pyGet chart_suggestion "data_points" with
    | some ct, some dp =>
        .ok ⟨if pandas_query = "" then "There was an issue generating the query." else pandas_query,
             result_dict, humanized_text, ct, dp⟩
    | _, _ => .serverError

/-- Outcome of `pd.read_csv(file.file)` on the uploaded file. -/
inductive CsvParseOutcome where
  | ok (data : DataFrame) : CsvParseOutcome
  | raises : CsvParseOutcome

/-- Response of the `/upload-dataset` endpoint: the success JSON (whose
`dataset_name` field is recorded) or an `HTTPException`. -/
inductive UploadResponse where
  | uploadOk (dataset_name : String) : UploadResponse
  | httpError (status : Nat) (detail : String) : UploadResponse

/-- Whether an upload response is the success message. -/
def UploadResponse.isSuccess : UploadResponse → Bool
  | .uploadOk _ => true
  | .httpError _ _ => false

/-- Python `filename.endswith(suffix)`, computed on the character list. -/
def pyEndsWith (s suffix : String) : Bool :=
  suffix.data.isSuffixOf s.data

/-- `filename.rsplit(".", 1)[0]`: everything before the last dot, or the
whole string when there is none; computed on the character list. -/
def stemOfFilename (s : String) : String :=
  if s.data.contains '.' then
    String.mk (((s.data.reverse.dropWhile (fun c => c != '.')).drop 1).reverse)
  else s

/-- Embedding of the `/upload-dataset` endpoint `upload_dataset`
(src/backend/main.py:220-237), returning the response together with the
resulting `datasets` store. The duplicate-name `HTTPException(400)` raised
at line 230 sits inside the `try`, so `except Exception` (line 235) catches
it and re-raises the generic 500 instead. -/
def upload_dataset (datasets : List (String × DataFrame)) (filename : String)
    (parse : CsvParseOutcome) : UploadResponse × List (String × DataFrame) :=
  if ¬ (pyEndsWith filename ".csv") then
    (.httpError 400 "Only CSV files are supported.", datasets)
  else
    match parse with
    | .raises => (.httpError 500 "An error occurred while processing the dataset.", datasets)
    | .ok data =>
      let dataset_name := stemOfFilename filename
      if (lookupStore datasets dataset_name).isSome then
        (.httpError 500 "An error occurred while processing the dataset.", datasets)
      else
        (.uploadOk dataset_name, datasets ++ [(dataset_name, data)])

/-! Concrete fixtures for witnesses and counterexamples: the two-row csgo
table of the spec's end-to-end scenario, and a one-entry series. -/

/-- Two-row table with columns map and kills. -/
def dfEx : DataFrame :=
  ⟨["map", "kills"], [[.pyStr "Dust2", .pyInt 10], [.pyStr "Mirage", .pyInt 7]]⟩

/-- Single-column result with the two kill counts. -/
def serEx : Series :=
  ⟨[.pyInt 0, .pyInt 1], [.pyInt 10, .pyInt 7]⟩

/-- The thesis of claim C1 fails in its humanizer half: on the empty-query
error result, a humanization call that succeeds with whitespace-only content
makes `get_humanized_response` return the empty string. The first conjunct
shows the error result is exactly the executor's answer to the empty query. -/
theorem C1_counterexample :
    execute_pandas_query "" dfEx (fun _ _ => .raises) =
      .errorDict "There was an issue processing your request. Please try again later." ∧
    get_humanized_response (some "k") (fun _ _ _ => .ok "") "total kills" ""
      (.errorDict "There was an issue processing your request. Please try again later.") = "" :=
  ⟨rfl, rfl⟩

/-- C1 (amended): on the empty query the executor returns the fixed error
result for every evaluation oracle (so nothing is evaluated), and the
humanizer run on that error result is non-empty provided every successful
humanization answer has non-empty stripped content (all of its failure
fallbacks are non-empty fixed strings). -/
theorem C1_amended_exec_humanize :
    (∀ (d : DataFrame) (ev : String → DataFrame → EvalOutcome),
      execute_pandas_query "" d ev =
        .errorDict "There was an issue processing your request. Please try again later.") ∧
    (∀ (key : Option String) (hum : String → String → ResultDict → TextCallOutcome)
        (uq : String),
      (∀ c, hum uq ""
          (.valueBox (.pyStr "There was an issue processing your request. Please try again later."))
          = .ok c → pyStrip c ≠ "") →
      get_humanized_response key hum uq ""
        (.errorDict "There was an issue processing your request. Please try again later.") ≠ "") := by
  constructor
  · intro d ev
    rfl
  · intro key hum uq hok
    unfold get_humanized_response
    by_cases hk : keyFalsy key
    · simp [hk]
    · simp only [hk, if_false, Bool.false_eq_true]
      cases hb : hum uq "" (collapseError
          (.errorDict "There was an issue processing your request. Please try again later.")) with
      | ok c =>
          have : pyStrip c ≠ "" := hok c hb
          simpa [hb] using this
      | openaiError => simp [hb]
      | malformedAnswer => simp [hb]

/-- Witness instantiating C1_amended_exec_humanize at the example table and a
humanization call that fails with an OpenAI error. -/
theorem C1_amended_witness :
    execute_pandas_query "" dfEx (fun _ _ => .raises) =
      .errorDict "There was an issue processing your request. Please try again later." ∧
    get_humanized_response (some "k") (fun _ _ _ => .openaiError) "total kills" ""
      (.errorDict "There was an issue processing your request. Please try again later.") ≠ "" :=
  ⟨C1_amended_exec_humanize.1 dfEx (fun _ _ => .raises),
   C1_amended_exec_humanize.2 (some "k") (fun _ _ _ => .openaiError) "total kills"
     (fun _ h => nomatch h)⟩

/-- C2: for a non-empty query whose evaluation succeeds, the executor
normalizes by shape: a DataFrame becomes one record per row with keys the
columns in original order, a Series becomes the index-to-value mapping, and
anything else is boxed as the single entry "value". -/
theorem C2_normalization (q : String) (d : DataFrame)
    (ev : String → DataFrame → EvalOutcome) (hq : q ≠ "") :
    (∀ t : DataFrame, ev q d = .ok (.df t) → t.WF →
      execute_pandas_query q d ev = .records t.toRecords ∧
      t.toRecords.length = t.rows.length ∧
      ∀ r ∈ t.toRecords, r.map Prod.fst = t.columns) ∧
    (∀ s : Series, ev q d = .ok (.ser s) →
      execute_pandas_query q d ev = .seriesDict s.toDict) ∧
    (∀ v : PyVal, ev q d = .ok (.other v) →
      execute_pandas_query q d ev = .valueBox v) := by
  refine ⟨?_, ?_, ?_⟩
  · intro t hev hwf
    refine ⟨by simp [execute_pandas_query, hq, hev], ?_, ?_⟩
    · simp [DataFrame.toRecords]
    · intro r hr
      obtain ⟨row, hrow, rfl⟩ := List.mem_map.1 hr
      exact List.map_fst_zip _ _ (hwf row hrow).symm.le
  · intro s hev
    simp [execute_pandas_query, hq, hev]
  · intro v hev
    simp [execute_pandas_query, hq, hev]

/-- Witness instantiating C2_normalization on concrete evaluations producing
the example table, the example series, and the scalar 17. -/
theorem C2_witness :
    (execute_pandas_query "df" dfEx (fun _ _ => .ok (.df dfEx)) = .records dfEx.toRecords ∧
      dfEx.toRecords.length = dfEx.rows.length ∧
      ∀ r ∈ dfEx.toRecords, r.map Prod.fst = dfEx.columns) ∧
    execute_pandas_query "df.kills" dfEx (fun _ _ => .ok (.ser serEx)) = .seriesDict serEx.toDict ∧
    execute_pandas_query "df.kills.sum()" dfEx (fun _ _ => .ok (.other (.pyInt 17))) =
      .valueBox (.pyInt 17) :=
  ⟨(C2_normalization "df" dfEx (fun _ _ => .ok (.df dfEx)) (by decide)).1 dfEx rfl
      (by intro r hr; fin_cases hr <;> rfl),
   (C2_normalization "df.kills" dfEx (fun _ _ => .ok (.ser serEx)) (by decide)).2.1 serEx rfl,
   (C2_normalization "df.kills.sum()" dfEx (fun _ _ => .ok (.other (.pyInt 17)))
      (by decide)).2.2 (.pyInt 17) rfl⟩

/-- The thesis of claim C3 fails: with the dataset present, a chart-suggestion
answer that parses to the non-mapping value 42 makes the endpoint raise
`AttributeError` on `.get`, so the request ends as a server error rather
than HTTP 200. -/
theorem C3_counterexample :
    query_data [("csgo", dfEx)] (some "k") (.ok "df")
      (fun _ _ => .ok (.other (.pyInt 1))) (fun _ _ _ => .ok "fine")
      (.evalOk (.pyInt 42)) "csgo" "total kills" = .serverError :=
  rfl

/-- C3 (amended): with the dataset present, the endpoint answers HTTP 200
with a fully populated envelope (non-empty query field) for every outcome of
synthesis, execution and humanization, whenever the chart suggestion is a
mapping — which includes every chart-call failure; when the chart suggestion
parses to a non-mapping value the request degenerates to a server error.
An unknown dataset name is the 404 short-circuit. -/
theorem C3_amended (datasets : List (String × DataFrame)) (apiKey : Option String)
    (synth : TextCallOutcome) (ev : String → DataFrame → EvalOutcome)
    (hum : String → String → ResultDict → TextCallOutcome)
    (chart : ChartCallOutcome) (name uq : String) :
    (∀ d : DataFrame, lookupStore datasets name = some d →
      ((∃ es, suggest_chart_type apiKey chart = .pyDict es) →
        ∃ env : ResponseEnvelope,
          query_data datasets apiKey synth ev hum chart name uq = .ok env ∧
          env.query ≠ "") ∧
      ((∀ es, suggest_chart_type apiKey chart ≠ .pyDict es) →
        query_data datasets apiKey synth ev hum chart name uq = .serverError)) ∧
    (lookupStore datasets name = none →
      query_data datasets apiKey synth ev hum chart name uq =
        .httpError 404 "Dataset not found") := by
  constructor
  · intro d hd
    constructor
    · rintro ⟨es, hes⟩
      have hq : query_data datasets apiKey synth ev hum chart name uq =
          .ok ⟨(if get_pandas_query apiKey synth = "" then
                  "There was an issue generating the query."
                else get_pandas_query apiKey synth),
               execute_pandas_query (get_pandas_query apiKey synth) d ev,
               get_humanized_response apiKey hum uq (get_pandas_query apiKey synth)
                 (execute_pandas_query (get_pandas_query apiKey synth) d ev),
               (((es.reverse).find? (fun e => decide (e.1 = "chart_type"))).map
                   Prod.snd).getD .pyNone,
               (((es.reverse).find? (fun e => decide (e.1 = "data_points"))).map
                   Prod.snd).getD .pyNone⟩ := by
        simp [query_data, hd, hes, pyGet]
      refine ⟨_, hq, ?_⟩
      by_cases hpq : get_pandas_query apiKey synth = ""
      · simp only [hpq, if_pos]
        decide
      · simp [hpq]
    · intro hnot
      cases hs : suggest_chart_type apiKey chart with
      | pyDict es => exact absurd hs (hnot es)
      | pyNone => simp [query_data, hd, hs, pyGet]
      | pyBool b => simp [query_data, hd, hs, pyGet]
      | pyInt n => simp [query_data, hd, hs, pyGet]
      | pyStr s => simp [query_data, hd, hs, pyGet]
      | pyList xs => simp [query_data, hd, hs, pyGet]
  · intro hnone
    simp [query_data, hnone]

/-- Witness instantiating C3_amended: a chart-call failure still yields a 200
envelope, a non-mapping parse yields the server error, and an unknown name
yields the 404. -/
theorem C3_amended_witness :
    (∃ env : ResponseEnvelope,
      query_data [("csgo", dfEx)] (some "k") (.ok "df")
        (fun _ _ => .ok (.other (.pyInt 1))) (fun _ _ _ => .openaiError)
        .callFails "csgo" "q" = .ok env ∧ env.query ≠ "") ∧
    query_data [("csgo", dfEx)] (some "k") (.ok "df")
      (fun _ _ => .ok (.other (.pyInt 1))) (fun _ _ _ => .openaiError)
      (.evalOk (.pyStr "bar")) "csgo" "q" = .serverError ∧
    query_data [("csgo", dfEx)] (some "k") (.ok "df")
      (fun _ _ => .ok (.other (.pyInt 1))) (fun _ _ _ => .openaiError)
      .callFails "twitch" "q" = .httpError 404 "Dataset not found" :=
  ⟨((C3_amended [("csgo", dfEx)] (some "k") (.ok "df")
      (fun _ _ => .ok (.other (.pyInt 1))) (fun _ _ _ => .openaiError)
      .callFails "csgo" "q").1 dfEx rfl).1
      ⟨[("chart_type", .pyNone), ("data_points", .pyNone)], rfl⟩,
   ((C3_amended [("csgo", dfEx)] (some "k") (.ok "df")
      (fun _ _ => .ok (.other (.pyInt 1))) (fun _ _ _ => .openaiError)
      (.evalOk (.pyStr "bar")) "csgo" "q").1 dfEx rfl).2
      (fun _ h => PyVal.noConfusion h),
   (C3_amended [("csgo", dfEx)] (some "k") (.ok "df")
      (fun _ _ => .ok (.other (.pyInt 1))) (fun _ _ _ => .openaiError)
      .callFails "twitch" "q").2 rfl⟩

/-- The thesis of claim C4 fails: a backend answer that parses to a mapping
with only the `chart_type` key is returned verbatim by the chart advisor — a
partial suggestion instead of the canonical empty one. -/
theorem C4_counterexample :
    suggest_chart_type (some "k") (.evalOk (.pyDict [("chart_type", .pyStr "bar")])) =
      .pyDict [("chart_type", .pyStr "bar")] ∧
    .pyDict [("chart_type", .pyStr "bar")] ≠ emptySuggestion :=
  ⟨rfl, by simp [emptySuggestion]⟩

/-- C4 (amended): on every failure (missing credential, backend call error,
unparseable answer) the chart advisor yields the canonical empty suggestion
and never raises; but an answer that parses as a Python literal is returned
verbatim, whatever its shape, including partial or non-mapping values. -/
theorem C4_amended (apiKey : Option String) :
    suggest_chart_type apiKey .evalRaises = emptySuggestion ∧
    suggest_chart_type apiKey .callFails = emptySuggestion ∧
    (keyFalsy apiKey = true → ∀ b, suggest_chart_type apiKey b = emptySuggestion) ∧
    (keyFalsy apiKey = false → ∀ v, suggest_chart_type apiKey (.evalOk v) = v) := by
  refine ⟨?_, ?_, ?_, ?_⟩
  · cases hk : keyFalsy apiKey <;> simp [suggest_chart_type, hk]
  · cases hk : keyFalsy apiKey <;> simp [suggest_chart_type, hk]
  · intro hk b
    simp [suggest_chart_type, hk]
  · intro hk v
    simp [suggest_chart_type, hk]

/-- Witness instantiating C4_amended with a present and an absent key. -/
theorem C4_amended_witness :
    suggest_chart_type (some "k") .evalRaises = emptySuggestion ∧
    suggest_chart_type (some "k") .callFails = emptySuggestion ∧
    suggest_chart_type none (.evalOk (.pyInt 3)) = emptySuggestion ∧
    suggest_chart_type (some "k") (.evalOk (.pyInt 3)) = .pyInt 3 :=
  ⟨(C4_amended (some "k")).1, (C4_amended (some "k")).2.1,
   (C4_amended none).2.2.1 rfl (.evalOk (.pyInt 3)),
   (C4_amended (some "k")).2.2.2 rfl (.pyInt 3)⟩

/-- The thesis of claim C5 fails: a humanization call that dies with a
non-OpenAI exception (for example a response object missing the expected
keys) returns the "processing your request" string, not the
"generating the response" string the claim demands for every failure. -/
theorem C5_counterexample :
    get_humanized_response (some "k") (fun _ _ _ => .malformedAnswer) "total kills" "df"
      (.valueBox (.pyInt 17)) =
      "We encountered an issue processing your request. Please try again later." ∧
    ¬ (get_humanized_response (some "k") (fun _ _ _ => .malformedAnswer) "total kills" "df"
      (.valueBox (.pyInt 17)) =
      "We encountered an issue generating the response. Please try again later.") :=
  ⟨rfl, by decide⟩

/-- C5 (amended): the humanizer never raises past its boundary (it is a total
function into strings); an `openai.error.OpenAIError` yields exactly the
"generating the response" fallback, while any other failure of the call
(missing credential, or a non-OpenAI exception such as an unusable response
object) yields the "processing your request" fallback. -/
theorem C5_amended (apiKey : Option String)
    (hum : String → String → ResultDict → TextCallOutcome)
    (uq pq : String) (rd : ResultDict) :
    (keyFalsy apiKey = true →
      get_humanized_response apiKey hum uq pq rd =
        "We encountered an issue processing your request. Please try again later.") ∧
    (keyFalsy apiKey = false →
      (hum uq pq (collapseError rd) = .openaiError →
        get_humanized_response apiKey hum uq pq rd =
          "We encountered an issue generating the response. Please try again later.") ∧
      (hum uq pq (collapseError rd) = .malformedAnswer →
        get_humanized_response apiKey hum uq pq rd =
          "We encountered an issue processing your request. Please try again later.")) := by
  constructor
  · intro hk
    simp [get_humanized_response, hk]
  · intro hk
    constructor
    · intro hb
      simp [get_humanized_response, hk, hb]
    · intro hb
      simp [get_humanized_response, hk, hb]

/-- Witness instantiating C5_amended at an OpenAI error, a non-OpenAI
failure, and a missing credential. -/
theorem C5_amended_witness :
    get_humanized_response (some "k") (fun _ _ _ => .openaiError) "q" "df"
      (.valueBox (.pyInt 17)) =
      "We encountered an issue generating the response. Please try again later." ∧
    get_humanized_response (some "k") (fun _ _ _ => .malformedAnswer) "q" "df"
      (.valueBox (.pyInt 1)) =
      "We encountered an issue processing your request. Please try again later." ∧
    get_humanized_response none (fun _ _ _ => .ok "all good") "q" "df"
      (.valueBox (.pyInt 1)) =
      "We encountered an issue processing your request. Please try again later." :=
  ⟨((C5_amended (some "k") (fun _ _ _ => .openaiError) "q" "df"
      (.valueBox (.pyInt 17))).2 rfl).1 rfl,
   ((C5_amended (some "k") (fun _ _ _ => .malformedAnswer) "q" "df"
      (.valueBox (.pyInt 1))).2 rfl).2 rfl,
   (C5_amended none (fun _ _ _ => .ok "all good") "q" "df"
      (.valueBox (.pyInt 1))).1 rfl⟩

/-- Claim C6 is contradicted by the code: with the credential absent, every
backend-calling step silently degrades to a soft-failure placeholder — the
`HTTPException(500)` each helper raises sits inside its own `try` and the
blanket `except Exception` swallows it — and the `/query` endpoint still
answers HTTP 200 with the placeholder envelope, surfacing no 500-class
error at all. -/
theorem C6_missing_key_soft_failure :
    (∀ b : TextCallOutcome, get_pandas_query none b = "") ∧
    (∀ (hum : String → String → ResultDict → TextCallOutcome) (uq pq : String)
        (rd : ResultDict),
      get_humanized_response none hum uq pq rd =
        "We encountered an issue processing your request. Please try again later.") ∧
    (∀ ch : ChartCallOutcome, suggest_chart_type none ch = emptySuggestion) ∧
    (∀ (synth : TextCallOutcome) (ev : String → DataFrame → EvalOutcome)
        (hum : String → String → ResultDict → TextCallOutcome)
        (chart : ChartCallOutcome) (uq : String),
      query_data [("csgo", dfEx)] none synth ev hum chart "csgo" uq =
        .ok ⟨"There was an issue generating the query.",
             .errorDict "There was an issue processing your request. Please try again later.",
             "We encountered an issue processing your request. Please try again later.",
             .pyNone, .pyNone⟩) :=
  ⟨fun _ => rfl, fun _ _ _ _ => rfl, fun _ => rfl, fun _ _ _ _ _ => rfl⟩

/-- C7: the Query Executor is deterministic — two runs on equal query
strings, equal tables and the same evaluation behavior return identical
results, and a repeated request against an unchanged store, credential and
stubbed backend outcomes yields an identical response. -/
theorem C7_executor_deterministic
    (q₁ q₂ : String) (d₁ d₂ : DataFrame) (ev₁ ev₂ : String → DataFrame → EvalOutcome)
    (store₁ store₂ : List (String × DataFrame)) (key₁ key₂ : Option String)
    (synth₁ synth₂ : TextCallOutcome)
    (hum₁ hum₂ : String → String → ResultDict → TextCallOutcome)
    (chart₁ chart₂ : ChartCallOutcome) (n₁ n₂ uq₁ uq₂ : String)
    (hq : q₁ = q₂) (hd : d₁ = d₂) (hev : ev₁ = ev₂) (hst : store₁ = store₂)
    (hk : key₁ = key₂) (hsy : synth₁ = synth₂) (hh : hum₁ = hum₂)
    (hc : chart₁ = chart₂) (hn : n₁ = n₂) (hu : uq₁ = uq₂) :
    execute_pandas_query q₁ d₁ ev₁ = execute_pandas_query q₂ d₂ ev₂ ∧
    query_data store₁ key₁ synth₁ ev₁ hum₁ chart₁ n₁ uq₁ =
      query_data store₂ key₂ synth₂ ev₂ hum₂ chart₂ n₂ uq₂ := by
  subst hq hd hev hst hk hsy hh hc hn hu
  exact ⟨rfl, rfl⟩

/-- Witness instantiating C7_executor_deterministic at a concrete repeated
request. -/
theorem C7_witness :
    execute_pandas_query "df" dfEx (fun _ _ => .raises) =
      execute_pandas_query "df" dfEx (fun _ _ => .raises) ∧
    query_data [("csgo", dfEx)] (some "k") (.ok "df") (fun _ _ => .raises)
      (fun _ _ _ => .openaiError) .callFails "csgo" "q" =
    query_data [("csgo", dfEx)] (some "k") (.ok "df") (fun _ _ => .raises)
      (fun _ _ _ => .openaiError) .callFails "csgo" "q" :=
  C7_executor_deterministic "df" "df" dfEx dfEx (fun _ _ => .raises) (fun _ _ => .raises)
    [("csgo", dfEx)] [("csgo", dfEx)] (some "k") (some "k") (.ok "df") (.ok "df")
    (fun _ _ _ => .openaiError) (fun _ _ _ => .openaiError) .callFails .callFails
    "csgo" "csgo" "q" "q" rfl rfl rfl rfl rfl rfl rfl rfl rfl rfl

/-- Claim C8 is contradicted by the code on its status code: uploading
csgo.csv while the dataset csgo exists answers the generic 500 — the
duplicate-name `HTTPException(400)` of line 230 is raised inside the `try`
and `except Exception` re-raises it as the 500 of line 237 — though the
stored table is indeed left unchanged. -/
theorem C8_duplicate_upload_500 :
    upload_dataset [("csgo", dfEx)] "csgo.csv" (.ok ⟨["a"], []⟩) =
      (.httpError 500 "An error occurred while processing the dataset.",
       [("csgo", dfEx)]) :=
  rfl

/-- C9: the humanizer detects failure by the literal key "error", so a
successful Series result carrying the index label "error" is collapsed to
the boxed entry value and becomes indistinguishable, for the rest of the
humanization step, from the boxed value itself — exactly the treatment a
genuine execution error receives. -/
theorem C9_error_key_collapse :
    execute_pandas_query "df.x" dfEx
      (fun _ _ => .ok (.ser ⟨[.pyStr "error"], [.pyInt 7]⟩)) =
      .seriesDict [(.pyStr "error", .pyInt 7)] ∧
    hasErrorKey (.seriesDict [(.pyStr "error", .pyInt 7)]) = true ∧
    collapseError (.seriesDict [(.pyStr "error", .pyInt 7)]) = .valueBox (.pyInt 7) ∧
    (∀ (key : Option String) (hum : String → String → ResultDict → TextCallOutcome)
        (uq pq : String),
      get_humanized_response key hum uq pq (.seriesDict [(.pyStr "error", .pyInt 7)]) =
        get_humanized_response key hum uq pq (.valueBox (.pyInt 7))) ∧
    (∀ (key : Option String) (hum : String → String → ResultDict → TextCallOutcome)
        (uq pq m : String),
      get_humanized_response key hum uq pq (.errorDict m) =
        get_humanized_response key hum uq pq (.valueBox (.pyStr m))) :=
  ⟨rfl, rfl, rfl, fun _ _ _ _ => rfl, fun _ _ _ _ _ => rfl⟩

/-- C10: a failed upload — wrong extension, duplicate derived name, or CSV
parse failure — leaves the dataset store unchanged; the store gains an entry
only when the endpoint returns its success message. -/
theorem C10_store_unchanged_on_failure
    (store : List (String × DataFrame)) (filename : String) (parse : CsvParseOutcome)
    (h : (upload_dataset store filename parse).1.isSuccess = false) :
    (upload_dataset store filename parse).2 = store := by
  unfold upload_dataset at *
  by_cases hext : pyEndsWith filename ".csv"
  · simp only [hext, Bool.not_true, if_neg, Bool.false_eq_true, not_false_eq_true, if_false] at *
    cases parse with
    | raises => rfl
    | ok data =>
        simp only at *
        by_cases hdup : (lookupStore store (stemOfFilename filename)).isSome
        · simp [hdup]
        · simp [hdup, UploadResponse.isSuccess] at h
  · simp [hext]

/-- Witness instantiating C10_store_unchanged_on_failure on the three
failure shapes: wrong extension, parse failure, duplicate name. -/
theorem C10_witness :
    (upload_dataset [("csgo", dfEx)] "notes.txt" (.ok ⟨["a"], []⟩)).2 = [("csgo", dfEx)] ∧
    (upload_dataset [("csgo", dfEx)] "twitch.csv" .raises).2 = [("csgo", dfEx)] ∧
    (upload_dataset [("csgo", dfEx)] "csgo.csv" (.ok ⟨["a"], []⟩)).2 = [("csgo", dfEx)] :=
  ⟨C10_store_unchanged_on_failure [("csgo", dfEx)] "notes.txt" (.ok ⟨["a"], []⟩) rfl,
   C10_store_unchanged_on_failure [("csgo", dfEx)] "twitch.csv" .raises rfl,
   C10_store_unchanged_on_failure [("csgo", dfEx)] "csgo.csv" (.ok ⟨["a"], []⟩) rfl⟩

end SmartDataAlly
